import Mathlib

/-!
Shallow embedding of the DavinciMCP command-interpretation pipeline.

Sources embedded here:
- `davincimcp/commands/command_registry.py` (CommandRegistry, CommandExecutor)
- `davincimcp/commands/editing_commands.py` (CutCommand, AddTransitionCommand,
  SetMarkerCommand)
- `davincimcp/core/mcp/mcp_client.py` (MCPClient connect/disconnect)
- `davincimcp/core/mcp/mcp_handler.py` (MCPHandler stop_server)
- `davincimcp/core/gemini_handler.py` (GeminiAPIHandler.generate_with_config)

Python `dict` values are modelled as ordered association lists; Python `float`
values produced by the code (durations, sampling temperatures) are modelled as
rationals, exact for the terminating decimals the code manipulates. External
effects (the vendor scripting binding, the subprocess layer, the hosted APIs)
are modelled as explicit environment values supplied to each operation.
-/

namespace DavinciMCP

/-! ## Python string primitives (ASCII fragment used by the sources) -/

/-- Python whitespace characters, as recognised by `str.strip` / `\s`. -/
def isPySpace (c : Char) : Bool :=
  c = ' ' || c = '\t' || c = '\n' || c = '\r' || c = '\x0b' || c = '\x0c'

/-- `str.lower` on one character (ASCII: the inputs in this repo are ASCII). -/
def pyLowerChar (c : Char) : Char :=
  if 'A' ≤ c && c ≤ 'Z' then Char.ofNat (c.toNat + 32) else c

/-- `str.strip()` on a character list: drop whitespace at both ends. -/
def pyStripL (l : List Char) : List Char :=
  ((l.dropWhile isPySpace).reverse.dropWhile isPySpace).reverse

/-- `str.strip()` on a string. -/
def pyStrip (s : String) : String :=
  ⟨pyStripL s.toList⟩

/-- Python substring containment `p in t`. -/
def isSub (p t : List Char) : Bool :=
  p.isPrefixOf t ||
    match t with
    | [] => false
    | _ :: t' => isSub p t'

/-- ASCII digit. -/
def isDigitCh (c : Char) : Bool := '0' ≤ c && c ≤ '9'

/-- `str.capitalize()`: first character upper-cased, rest lower-cased (ASCII). -/
def pyCapitalize (s : String) : String :=
  match s.toList with
  | [] => ""
  | c :: rest =>
    ⟨(if 'a' ≤ c && c ≤ 'z' then Char.ofNat (c.toNat - 32) else c) :: rest.map pyLowerChar⟩

/-! ## Python dict values -/

/-- A Python value as it appears in the command pipeline's dicts: a string, a
float (exact rational here), or a nested dict (ordered association list). -/
inductive PyVal where
  | str (s : String)
  | num (q : ℚ)
  | dict (d : List (String × PyVal))

/-- An ordered Python dict with string keys. -/
abbrev Dict := List (String × PyVal)

/-- Python dict assignment `d[k] = v`: replace in place (keeping position) if
the key exists, else append. -/
def dictSet : Dict → String → PyVal → Dict
  | [], k, v => [(k, v)]
  | (k', v') :: rest, k, v =>
    if k' = k then (k, v) :: rest else (k', v') :: dictSet rest k v

/-- Fractional digits of a nonnegative rational below 1, bounded by fuel; the
floats this code manipulates are terminating decimals, rendered exactly. -/
def fracDigits : ℕ → ℚ → String
  | 0, _ => ""
  | n + 1, q =>
    if q = 0 then ""
    else
      let d := (q * 10).floor
      toString d ++ fracDigits n (q * 10 - d)

/-- Rendering of a nonnegative terminating-decimal rational the way Python
renders the corresponding float (`2.5` -> "2.5", `1` -> "1.0"). -/
def showFloat (q : ℚ) : String :=
  let ip := q.floor
  let fr := q - ip
  if fr = 0 then toString ip ++ ".0"
  else toString ip ++ "." ++ fracDigits 30 fr

/-- Rendering of a value inside a Python f-string. Strings render as
themselves; floats render as terminating decimals (the only numeric shape this
code produces). -/
def pyStr (v : PyVal) : String :=
  match v with
  | .str s => s
  | .num q => showFloat q
  | .dict _ => "{...}"

/-! ## Intent matcher (`CommandRegistry.match_nlp_intent`, `_extract_params`)

The registry registers, in insertion order, the commands "cut", "transition"
and "marker" with the trigger-phrase lists below (`_register_commands`). -/

/-- `self.nlp_matchers`, in registration order. -/
def nlp_matchers : List (String × List String) :=
  [ ("cut", ["cut", "split", "slice", "divide",
             "separate clip", "split clip", "cut clip"]),
    ("transition", ["add transition", "transition", "dissolve",
                    "cross dissolve", "fade", "wipe"]),
    ("marker", ["add marker", "set marker", "create marker", "marker",
                "mark position"]) ]

/-- The transition vocabulary table of `_extract_params`, in insertion order. -/
def transition_types : List (String × String) :=
  [ ("cross dissolve", "Cross Dissolve"), ("fade", "Fade"), ("wipe", "Wipe"),
    ("push", "Push"), ("slide", "Slide") ]

/-- The marker colour vocabulary of `_extract_params`. -/
def marker_colors : List String :=
  ["blue", "green", "red", "yellow", "purple", "cyan", "magenta", "white", "black"]

/-- First table value whose key is contained in the text (the `for key, value
in transition_types.items()` loop with `break`). -/
def firstContained : List (String × String) → List Char → Option String
  | [], _ => none
  | (k, v) :: rest, t => if isSub k.toList t then some v else firstContained rest t

/-- First colour contained in the text, capitalised (the colour loop). -/
def firstColor : List String → List Char → Option String
  | [], _ => none
  | c :: rest, t => if isSub c.toList t then some (pyCapitalize c) else firstColor rest t

/-- Leftmost-position search: `re.search` tries the pattern at each start
position, left to right, and returns the first success. -/
def searchLeft (f : List Char → Option (List Char)) : List Char → Option (List Char)
  | [] => f []
  | c :: t =>
    match f (c :: t) with
    | some r => some r
    | none => searchLeft f t

/-- Attempt of the duration pattern `(\d+(?:\.\d+)?)\s*(?:s|sec|second)` at the
head of the text, returning capture group 1. The alternation tries "s" first,
so the tail requirement is exactly an "s" after optional whitespace; giving
back digits from either `\d+` can never produce a match the greedy attempt
misses (the character after a shortened digit run is a digit, which is neither
whitespace nor "s"), so only the optional fraction group backtracks. -/
def durMatchAt (cs : List Char) : Option (List Char) :=
  let ds := cs.takeWhile isDigitCh
  if ds.isEmpty then none
  else
    let rest := cs.drop ds.length
    let tryTail (grp r : List Char) : Option (List Char) :=
      match r.dropWhile isPySpace with
      | 's' :: _ => some grp
      | _ => none
    match rest with
    | '.' :: r1 =>
      let fs := r1.takeWhile isDigitCh
      if fs.isEmpty then tryTail ds rest
      else
        match tryTail (ds ++ '.' :: fs) (r1.drop fs.length) with
        | some g => some g
        | none => tryTail ds rest
    | _ => tryTail ds rest

/-- Digit run to a natural number. -/
def digitsToNat (ds : List Char) : ℕ :=
  ds.foldl (fun a c => 10 * a + (c.toNat - 48)) 0

/-- Python `float()` applied to the duration capture `\d+(\.\d+)?`, exact for
these terminating decimals. -/
def parseFloat (g : List Char) : ℚ :=
  let ip := g.takeWhile (fun c => c ≠ '.')
  let rest := g.drop ip.length
  match rest with
  | '.' :: fp => (digitsToNat ip : ℚ) + (digitsToNat fp : ℚ) / (10 : ℚ) ^ fp.length
  | _ => (digitsToNat ip : ℚ)

/-- Character class `[a-zA-Z0-9 ]` of the marker-name pattern. -/
def isNameChar (c : Char) : Bool :=
  ('a' ≤ c && c ≤ 'z') || ('A' ≤ c && c ≤ 'Z') || isDigitCh c || c = ' '

/-- The body `['\"]?([a-zA-Z0-9 ]+)['\"]?` after the whitespace of the
marker-name pattern: the optional quote is greedy (consumed when present), and
if the class run after a consumed quote is empty, backtracking to leave the
quote unconsumed also fails because a quote is not a class character. The
trailing optional quote never fails. Returns capture group 1. -/
def nameBody (r : List Char) : Option (List Char) :=
  match r with
  | [] => none
  | c :: r' =>
    if c = '\'' || c = '"' then
      let run := r'.takeWhile isNameChar
      if run.isEmpty then none else some run
    else
      let run := r.takeWhile isNameChar
      if run.isEmpty then none else some run

/-- Backtracking over `\s+`: the greedy run tries its full length first, then
gives characters back one at a time down to a single whitespace character. -/
def nameAfterWs (r : List Char) : ℕ → Option (List Char)
  | 0 => none
  | k + 1 =>
    match nameBody (r.drop (k + 1)) with
    | some g => some g
    | none => nameAfterWs r k

/-- Attempt of `(?:named|called|name)\s+['\"]?([a-zA-Z0-9 ]+)['\"]?` at the
head of the text: alternatives in declaration order, each followed by the
whitespace-and-body continuation. -/
def nameMatchAt (cs : List Char) : Option (List Char) :=
  let tryKw (kw : String) : Option (List Char) :=
    if kw.toList.isPrefixOf cs then
      let rest := cs.drop kw.length
      nameAfterWs rest (rest.takeWhile isPySpace).length
    else none
  match tryKw "named" with
  | some g => some g
  | none =>
    match tryKw "called" with
    | some g => some g
    | none => tryKw "name"

/-- `CommandRegistry._extract_params`: per-command regex/vocabulary parameter
extraction from the (already normalised) text. -/
def extract_params (command_id : String) (t : List Char) : Dict :=
  if command_id = "transition" then
    (match firstContained transition_types t with
     | some v => [("type", PyVal.str v)]
     | none => []) ++
    (match searchLeft durMatchAt t with
     | some g => [("duration", PyVal.num (parseFloat g))]
     | none => [])
  else if command_id = "marker" then
    (match searchLeft nameMatchAt t with
     | some g => [("name", PyVal.str (pyStrip ⟨g⟩))]
     | none => []) ++
    (match firstColor marker_colors t with
     | some c => [("color", PyVal.str c)]
     | none => [])
  else []

/-- The normalisation `text.lower().strip()` performed by `match_nlp_intent`. -/
def normalize_text (text : String) : List Char :=
  pyStripL (text.toList.map pyLowerChar)

/-- The nested matching loop of `match_nlp_intent`: registered commands in
registration order, trigger phrases in declaration order, first phrase that is
a substring of the text wins. -/
def first_match : List (String × List String) → List Char → Option String
  | [], _ => none
  | (cid, ps) :: rest, t =>
    if ps.any (fun p => isSub p.toList t) then some cid else first_match rest t

/-- `CommandRegistry.match_nlp_intent`: normalise, find the first matching
command, extract its parameters. The returned Python dict has exactly the two
keys `command_id` and `params`; it is modelled as the pair of their values. -/
def match_nlp_intent (text : String) : Option (String × Dict) :=
  let t := normalize_text text
  match first_match nlp_matchers t with
  | some cid => some (cid, extract_params cid t)
  | none => none

/-! ## Built-in commands (`editing_commands.py`)

Each `execute` wraps its body in `try/except`: the call to
`resolve_controller.get_current_timeline()` either returns a timeline (or
`None`), or raises; a raised exception is caught and turned into an error
dict with `str(e)` as message. That external outcome is the environment. -/

/-- Outcome of `self.resolve_controller.get_current_timeline()` inside the
`try` block: a timeline handle, `None`, or a raised exception. -/
inductive ResolveEnv where
  | timeline (t : Option Unit)
  | raised (msg : String)

/-- The three commands registered by `CommandRegistry._register_commands`. -/
inductive CmdKind where
  | cut
  | transition
  | marker

/-- `CommandRegistry.get_command` over the registered command ids. -/
def get_command (command_id : String) : Option CmdKind :=
  if command_id = "cut" then some CmdKind.cut
  else if command_id = "transition" then some CmdKind.transition
  else if command_id = "marker" then some CmdKind.marker
  else none

/-- `params.get(k, default)` where the caller treats the value as arbitrary. -/
def dictGetD (d : Dict) (k : String) (v : PyVal) : PyVal :=
  (d.lookup k).getD v

/-- `CutCommand.execute`. -/
def cut_execute (env : ResolveEnv) (_params : Dict) : Dict :=
  match env with
  | .raised e => [("status", .str "error"), ("message", .str e)]
  | .timeline none => [("status", .str "error"), ("message", .str "No active timeline")]
  | .timeline (some _) =>
    [("status", .str "success"), ("message", .str "Cut performed at playhead position")]

/-- `AddTransitionCommand.execute`. -/
def transition_execute (env : ResolveEnv) (params : Dict) : Dict :=
  let transition_type := dictGetD params "type" (.str "Cross Dissolve")
  let duration := dictGetD params "duration" (.num 1)
  match env with
  | .raised e => [("status", .str "error"), ("message", .str e)]
  | .timeline none => [("status", .str "error"), ("message", .str "No active timeline")]
  | .timeline (some _) =>
    [("status", .str "success"),
     ("message", .str ("Added " ++ pyStr transition_type ++ " transition")),
     ("transition_type", transition_type),
     ("duration", duration)]

/-- `SetMarkerCommand.execute`. -/
def marker_execute (env : ResolveEnv) (params : Dict) : Dict :=
  let marker_name := dictGetD params "name" (.str "Marker")
  let marker_color := dictGetD params "color" (.str "Blue")
  match env with
  | .raised e => [("status", .str "error"), ("message", .str e)]
  | .timeline none => [("status", .str "error"), ("message", .str "No active timeline")]
  | .timeline (some _) =>
    [("status", .str "success"),
     ("message", .str ("Added marker '" ++ pyStr marker_name ++ "'")),
     ("marker_name", marker_name),
     ("marker_color", marker_color),
     ("position", .str "00:00:00:00")]

/-- Dispatch of `command.execute(params)` over the registered commands. -/
def cmd_execute (c : CmdKind) (env : ResolveEnv) (params : Dict) : Dict :=
  match c with
  | .cut => cut_execute env params
  | .transition => transition_execute env params
  | .marker => marker_execute env params

/-- `result.get(k, default)` when the default and value are rendered into an
f-string. -/
def dictGetStr (d : Dict) (k : String) (dflt : String) : String :=
  match d.lookup k with
  | some v => pyStr v
  | none => dflt

/-- The test `result.get("status") == "success"` of the feedback methods. -/
def statusIsSuccess (result : Dict) : Bool :=
  match result.lookup "status" with
  | some (.str s) => s = "success"
  | _ => false

/-- `CutCommand.get_feedback`. -/
def cut_get_feedback (result : Dict) : String :=
  if statusIsSuccess result then
    "Cut performed at the current position"
  else
    "Error performing cut: " ++ dictGetStr result "message" "Unknown error"

/-- `AddTransitionCommand.get_feedback`. -/
def transition_get_feedback (result : Dict) : String :=
  if statusIsSuccess result then
    "Added " ++ dictGetStr result "transition_type" "transition" ++
      " with duration " ++ dictGetStr result "duration" "1.0" ++ "s"
  else
    "Error adding transition: " ++ dictGetStr result "message" "Unknown error"

/-- `SetMarkerCommand.get_feedback`. -/
def marker_get_feedback (result : Dict) : String :=
  if statusIsSuccess result then
    "Added marker '" ++ dictGetStr result "marker_name" "Marker" ++ "' at " ++
      dictGetStr result "position" "current position"
  else
    "Error adding marker: " ++ dictGetStr result "message" "Unknown error"

/-- Dispatch of `command.get_feedback(result)`. -/
def cmd_get_feedback (c : CmdKind) (result : Dict) : String :=
  match c with
  | .cut => cut_get_feedback result
  | .transition => transition_get_feedback result
  | .marker => marker_get_feedback result

/-! ## Command executor (`CommandExecutor`) -/

/-- The state of a `CommandExecutor` (the registry itself is the fixed one
built by `_register_commands`, embedded above). -/
structure ExecutorState where
  feedback_enabled : Bool
  history : List Dict

/-- `CommandExecutor.execute_from_text`: match, dispatch, optionally attach
feedback, append one history record, return the result dict. -/
def execute_from_text (env : ResolveEnv) (s : ExecutorState) (text : String) :
    Dict × ExecutorState :=
  match match_nlp_intent text with
  | none =>
    let result : Dict :=
      [("status", .str "error"),
       ("message", .str "Could not understand command"),
       ("original_text", .str text)]
    (result, { s with history := s.history ++ [result] })
  | some (command_id, params) =>
    match get_command command_id with
    | none =>
      let result : Dict :=
        [("status", .str "error"),
         ("message", .str ("Command '" ++ command_id ++ "' not found")),
         ("original_text", .str text)]
      (result, { s with history := s.history ++ [result] })
    | some command =>
      let executed := cmd_execute command env params
      let result :=
        if s.feedback_enabled then
          dictSet executed "feedback" (.str (cmd_get_feedback command executed))
        else executed
      let entry : Dict :=
        [("command_id", .str command_id),
         ("params", .dict params),
         ("result", .dict result),
         ("original_text", .str text)]
      (result, { s with history := s.history ++ [entry] })

/-- `CommandExecutor.get_last_feedback`: look at the last history record;
return its result's attached feedback if present, else recompute it through
the command's feedback formatter; `None` when nothing applies. An empty
`command_id` string is falsy in Python, hence the emptiness test. -/
def get_last_feedback (s : ExecutorState) : Option String :=
  match s.history.getLast? with
  | none => none
  | some last_command =>
    let result : Dict :=
      match last_command.lookup "result" with
      | some (.dict d) => d
      | _ => []
    match result.lookup "feedback" with
    | some v => some (pyStr v)
    | none =>
      match last_command.lookup "command_id" with
      | some (.str command_id) =>
        if command_id = "" then none
        else
          match get_command command_id with
          | some command => some (cmd_get_feedback command result)
          | none => none
      | _ => none

/-! ## Protocol client (`mcp_client.py`, `MCPClient`)

The client's mutable fields relevant to connect/disconnect are embedded as a
state record. The `AsyncExitStack` is modelled as an optional list of the
resources entered into it; closing the stack releases them all. External
outcomes of each awaited step form the connect environment. -/

/-- Runtime kind detected by `_get_script_type`. -/
inductive ScriptKind where
  | python
  | node

/-- Outcomes of the external steps of `connect_to_server`. -/
structure ConnectEnv where
  /-- Result of `_get_script_type(server_script_path)`. -/
  scriptKind : Option ScriptKind
  /-- `stdio_client(...)` entered into the exit stack without raising. -/
  transportOk : Bool
  /-- `session.initialize()` completed without raising. -/
  initializeOk : Bool
  /-- `session.list_resources()` completed without raising. -/
  listResourcesOk : Bool
  /-- `"tools" in self.session.capabilities`. -/
  hasToolsCap : Bool
  /-- `session.list_tools()` completed without raising. -/
  listToolsOk : Bool

/-- Connection state of an `MCPClient`. -/
structure MCPClientState where
  enabled : Bool
  anthropicPresent : Bool
  /-- `self.exit_stack`: `none` models the Python `None`; `some rs` models a
  live `AsyncExitStack` currently holding the entered resources `rs`. -/
  exitStack : Option (List String)
  session : Option Unit
  initialized : Bool

/-- The resources currently held by the client's exit stack. -/
def heldResources (s : MCPClientState) : List String :=
  s.exitStack.getD []

/-- The `except` block of `connect_to_server`: close the exit stack (releasing
everything entered into it), null it, null the session, clear the flag. -/
def connectCleanup (s : MCPClientState) : MCPClientState :=
  { s with exitStack := none, session := none, initialized := false }

/-- `MCPClient.connect_to_server`. Early `return False` paths (disabled, no
model client, unrecognised script kind) leave state as the code leaves it; in
particular the script-kind path returns with the freshly created, still-empty
exit stack in place and unclosed, exactly as the source does. -/
def connect_to_server (s : MCPClientState) (env : ConnectEnv) :
    Bool × MCPClientState :=
  if !s.enabled then (false, s)
  else if !s.anthropicPresent then (false, s)
  else
    let s1 := { s with exitStack := some [] }
    match env.scriptKind with
    | none => (false, s1)
    | some _ =>
      if !env.transportOk then (false, connectCleanup s1)
      else
        let s2 := { s1 with exitStack := some ["transport"] }
        let s3 := { s2 with session := some () }
        if !env.initializeOk then (false, connectCleanup s3)
        else if !env.listResourcesOk then (false, connectCleanup s3)
        else if env.hasToolsCap && !env.listToolsOk then (false, connectCleanup s3)
        else (true, { s3 with initialized := true })

/-- `MCPClient.disconnect`: no-op returning `False` when not initialized or no
exit stack; otherwise close the stack (releasing its resources), null it,
null the session, clear the flag, return `True`. -/
def mcp_disconnect (s : MCPClientState) : Bool × MCPClientState :=
  if !s.initialized || s.exitStack.isNone then (false, s)
  else (true, { s with exitStack := none, session := none, initialized := false })

/-! ## Server process manager (`mcp_handler.py`, `MCPHandler.stop_server`) -/

/-- Mutable fields of `MCPHandler` relevant to `stop_server`. -/
structure MCPHandlerState where
  serverProcess : Option Unit
  initialized : Bool

/-- Counters of the external subprocess calls made during one `stop_server`
call: `terminate()`, `kill()` and awaited `wait()`s. -/
structure StopTrace where
  terminateCalls : ℕ
  killCalls : ℕ
  waitCalls : ℕ

/-- `MCPHandler.stop_server`. The environment flag tells whether the awaited
`wait_for(self.server_process.wait(), timeout=5.0)` completes inside the
5-second window (`true`) or raises `asyncio.TimeoutError` (`false`); in the
latter case the code calls `kill()` once and awaits `wait()` again. On a live
process, `terminate`/`kill`/`wait` themselves do not raise. -/
def stop_server (s : MCPHandlerState) (gracefulInTime : Bool) :
    Bool × MCPHandlerState × StopTrace :=
  match s.serverProcess with
  | none => (false, s, ⟨0, 0, 0⟩)
  | some _ =>
    if gracefulInTime then
      (true, { serverProcess := none, initialized := false }, ⟨1, 0, 1⟩)
    else
      (true, { serverProcess := none, initialized := false }, ⟨1, 1, 2⟩)

/-! ## AI text completion adapter (`gemini_handler.py`, `GeminiAPIHandler`) -/

/-- Mutable fields of `GeminiAPIHandler` relevant to generation: the
initialized flag and the process-wide default `generation_config` dict
(numeric-valued). -/
structure GeminiState where
  initialized : Bool
  generation_config : List (String × ℚ)

/-- The default config installed by `initialize`. -/
def defaultGenerationConfig : List (String × ℚ) :=
  [("temperature", 7/10), ("top_p", 9/10), ("top_k", 40), ("max_output_tokens", 1024)]

/-- Assignment into a numeric config dict (same semantics as `dictSet`). -/
def cfgSet : List (String × ℚ) → String → ℚ → List (String × ℚ)
  | [], k, v => [(k, v)]
  | (k', v') :: rest, k, v =>
    if k' = k then (k, v) :: rest else (k', v') :: cfgSet rest k v

/-- Outcome of the external `self.model.generate_content(...)` call. -/
inductive ApiOutcome where
  | ok (text : String)
  | raised (msg : String)

/-- `GeminiAPIHandler.generate_with_config`. Output: the returned string, the
handler state after the call, and — as an observation of the call actually
made — the generation config passed to `generate_content` (`none` when no API
call happened). The override config is built on `self.generation_config.copy()`
and the supplied temperature is clamped by `max(0.0, min(1.0, temperature))`. -/
def generate_with_config (s : GeminiState) (api : ApiOutcome) (_prompt : String)
    (temperature : Option ℚ) (max_output_tokens : Option ℚ) :
    String × GeminiState × Option (List (String × ℚ)) :=
  if !s.initialized then ("Error: API not initialized", s, none)
  else
    let cfg0 := s.generation_config
    let cfg1 :=
      match temperature with
      | some t => cfgSet cfg0 "temperature" (max 0 (min 1 t))
      | none => cfg0
    let cfg2 :=
      match max_output_tokens with
      | some m => cfgSet cfg1 "max_output_tokens" m
      | none => cfg1
    match api with
    | .ok txt => (txt, s, some cfg2)
    | .raised e =>
      ("Error: Error generating response with custom config: " ++ e, s, some cfg2)

/-! ## Helper lemmas -/

/-- Key lookup after `cfgSet` at the written key. -/
lemma lookup_cfgSet_self (c : List (String × ℚ)) (k : String) (v : ℚ) :
    (cfgSet c k v).lookup k = some v := by
  induction c with
  | nil => simp [cfgSet, List.lookup]
  | cons a rest ih =>
    obtain ⟨k', v'⟩ := a
    by_cases h : k' = k
    · simp [cfgSet, h, List.lookup]
    · have hbf : (k == k') = false :=
        beq_eq_false_iff_ne.mpr (fun hh => h hh.symm)
      simp [cfgSet, if_neg h, List.lookup, hbf, ih]

/-- Key lookup after `cfgSet` at a different key. -/
lemma lookup_cfgSet_ne (c : List (String × ℚ)) {k k' : String} (h : k ≠ k') (v : ℚ) :
    (cfgSet c k' v).lookup k = c.lookup k := by
  have hbf : (k == k') = false := beq_eq_false_iff_ne.mpr h
  induction c with
  | nil => simp [cfgSet, List.lookup, hbf]
  | cons a rest ih =>
    obtain ⟨a1, a2⟩ := a
    by_cases ha : a1 = k'
    · subst ha
      simp [cfgSet, List.lookup, hbf]
    · cases hk : (k == a1) <;>
        simp [cfgSet, if_neg ha, List.lookup, hk, ih]

/-- When no trigger phrase of any listed command is contained in the text,
the matching loop returns `none`. -/
lemma first_match_eq_none {t : List Char} :
    ∀ {ms : List (String × List String)},
      (∀ pr ∈ ms, ∀ p ∈ pr.2, isSub p.toList t = false) →
      first_match ms t = none := by
  intro ms
  induction ms with
  | nil => intro _; rfl
  | cons a rest ih =>
    intro h
    obtain ⟨cid, ps⟩ := a
    have hno : (ps.any fun p => isSub p.toList t) = false := by
      rw [List.any_eq_false]
      intro p hp
      rw [h (cid, ps) (List.mem_cons_self _ _) p hp]
      decide
    simp only [first_match, hno, Bool.false_eq_true, if_false]
    exact ih fun pr hpr => h pr (List.mem_cons_of_mem _ hpr)

/-- Lower-casing keeps whitespace characters fixed. -/
lemma pyLowerChar_of_space {c : Char} (h : isPySpace c = true) :
    pyLowerChar c = c := by
  simp only [isPySpace, Bool.or_eq_true, decide_eq_true_eq] at h
  rcases h with ((((h | h) | h) | h) | h) | h <;> subst h <;> decide

/-- Lower-casing an all-whitespace character list is the identity. -/
lemma map_lower_of_space :
    ∀ l : List Char, (∀ c ∈ l, isPySpace c = true) → l.map pyLowerChar = l := by
  intro l
  induction l with
  | nil => intro _; rfl
  | cons c rest ih =>
    intro h
    simp only [List.map_cons]
    rw [pyLowerChar_of_space (h c (List.mem_cons_self _ _)),
      ih fun d hd => h d (List.mem_cons_of_mem _ hd)]

/-- Stripping an all-whitespace character list yields the empty list. -/
lemma pyStripL_of_space {l : List Char} (h : ∀ c ∈ l, isPySpace c = true) :
    pyStripL l = [] := by
  unfold pyStripL
  rw [List.dropWhile_eq_nil_iff.mpr fun c hc => h c hc]
  rfl

/-- `List.getLast?` of a one-element extension. -/
lemma getLast?_append_singleton {α : Type} (l : List α) (a : α) :
    (l ++ [a]).getLast? = some a :=
  List.getLast?_concat l

/-- Command ids produced by the matcher are the three registered ones. -/
lemma match_cid_cases {text : String} {cid : String} {params : Dict}
    (h : match_nlp_intent text = some (cid, params)) :
    cid = "cut" ∨ cid = "transition" ∨ cid = "marker" := by
  simp only [match_nlp_intent] at h
  cases hf : first_match nlp_matchers (normalize_text text) with
  | none => rw [hf] at h; cases h
  | some c0 =>
    rw [hf] at h
    simp only [Option.some.injEq, Prod.mk.injEq] at h
    have hc : c0 = "cut" ∨ c0 = "transition" ∨ c0 = "marker" := by
      simp only [nlp_matchers, first_match] at hf
      split_ifs at hf <;> first
        | (injection hf with hh; exact Or.inl hh.symm)
        | (injection hf with hh; exact Or.inr (Or.inl hh.symm))
        | (injection hf with hh; exact Or.inr (Or.inr hh.symm))
    rw [← h.1]
    exact hc

/-- No execution result dict of the built-in commands carries a "feedback"
key. -/
lemma lookup_feedback_cmd_execute (c : CmdKind) (env : ResolveEnv) (params : Dict) :
    (cmd_execute c env params).lookup "feedback" = none := by
  cases c <;> rcases env with (_ | _) | m <;>
    simp [cmd_execute, cut_execute, transition_execute, marker_execute, List.lookup]

/-! ## Claim theorems -/

/-- Claim C2: if no trigger phrase of any registered command is contained in
the normalised (lower-cased, stripped) input, `match_nlp_intent` returns
`none`; in particular any empty or whitespace-only input never matches. -/
theorem c2_no_phrase_no_match (text : String) :
    ((∀ pr ∈ nlp_matchers, ∀ p ∈ pr.2,
        isSub p.toList (normalize_text text) = false) →
      match_nlp_intent text = none) ∧
    ((∀ c ∈ text.toList, isPySpace c = true) → match_nlp_intent text = none) := by
  constructor
  · intro h
    simp only [match_nlp_intent]
    rw [first_match_eq_none h]
  · intro h
    have hnorm : normalize_text text = [] := by
      unfold normalize_text
      rw [map_lower_of_space _ h]
      exact pyStripL_of_space h
    simp only [match_nlp_intent]
    rw [hnorm]
    rfl

/-- Witness for C2: a text containing no trigger phrase does not match, and a
whitespace-only text does not match. -/
theorem c2_no_phrase_no_match_witness :
    match_nlp_intent "hello" = none ∧ match_nlp_intent "   " = none :=
  ⟨(c2_no_phrase_no_match "hello").1 (by decide),
   (c2_no_phrase_no_match "   ").2 (by decide)⟩

/-- Claim C1 (behaviour of the code at the documented inputs): on
"add a 2.5s fade transition" the matcher yields type "Fade" and duration 2.5,
and on "set a red marker" it yields colour "Red", as claimed; but on
"add a marker named 'Scene 1'" it yields command id "marker" with the name
"scene 1" — not "Scene 1" — because `match_nlp_intent` lowercases the whole
input before `_extract_params` runs its regular expression, contradicting the
repository's own test `test_match_nlp_intent_marker`. -/
theorem c1_matcher_documented_inputs :
    (∃ q, match_nlp_intent "add a 2.5s fade transition"
        = some ("transition",
                [("type", PyVal.str "Fade"), ("duration", PyVal.num q)]) ∧
      q = 5/2) ∧
    match_nlp_intent "add a marker named 'Scene 1'"
      = some ("marker", [("name", PyVal.str "scene 1")]) ∧
    "scene 1" ≠ "Scene 1" ∧
    match_nlp_intent "set a red marker"
      = some ("marker", [("color", PyVal.str "Red")]) := by
  refine ⟨⟨parseFloat ['2', '.', '5'], ?_, ?_⟩, ?_, ?_, ?_⟩
  · rfl
  · have h : parseFloat ['2', '.', '5']
        = (digitsToNat ['2'] : ℚ) + (digitsToNat ['5'] : ℚ) / (10 : ℚ) ^ 1 := rfl
    have h2 : digitsToNat ['2'] = 2 := rfl
    have h5 : digitsToNat ['5'] = 5 := rfl
    rw [h, h2, h5]
    norm_num
  · rfl
  · decide
  · rfl

/-- Claim C3: every call to `execute_from_text` appends exactly one entry to
the executor's history (so entries accumulate in call order and are never
removed), and on unmatched input the returned result has status "error", a
message containing "Could not understand command", carries the original input
text, and is itself the appended history entry. -/
theorem c3_execute_from_text_history (env : ResolveEnv) (s : ExecutorState)
    (text : String) :
    (∃ e, (execute_from_text env s text).2.history = s.history ++ [e]) ∧
    (match_nlp_intent text = none →
       (execute_from_text env s text).1.lookup "status" = some (PyVal.str "error") ∧
       (∃ m, (execute_from_text env s text).1.lookup "message" = some (PyVal.str m) ∧
          isSub "Could not understand command".toList m.toList = true) ∧
       (execute_from_text env s text).1.lookup "original_text"
          = some (PyVal.str text) ∧
       (execute_from_text env s text).2.history
          = s.history ++ [(execute_from_text env s text).1]) := by
  cases hm : match_nlp_intent text with
  | none =>
    constructor
    · simp only [execute_from_text, hm]
      exact ⟨_, rfl⟩
    · intro _
      refine ⟨?_, ⟨"Could not understand command", ?_, ?_⟩, ?_, ?_⟩ <;>
        first
          | decide
          | (simp only [execute_from_text, hm]; try rfl)
  | some mr =>
    obtain ⟨cid, params⟩ := mr
    constructor
    · cases hg : get_command cid with
      | none =>
        simp only [execute_from_text, hm, hg]
        exact ⟨_, rfl⟩
      | some c =>
        simp only [execute_from_text, hm, hg]
        exact ⟨_, rfl⟩
    · intro h
      simp at h

/-- Witness for C3 on a concrete unmatched input. -/
theorem c3_execute_from_text_history_witness :
    (∃ e, (execute_from_text (ResolveEnv.timeline none) ⟨true, []⟩
        "do something else").2.history = [] ++ [e]) ∧
    (execute_from_text (ResolveEnv.timeline none) ⟨true, []⟩
        "do something else").1.lookup "status" = some (PyVal.str "error") ∧
    (∃ m, (execute_from_text (ResolveEnv.timeline none) ⟨true, []⟩
        "do something else").1.lookup "message" = some (PyVal.str m) ∧
       isSub "Could not understand command".toList m.toList = true) := by
  have h := c3_execute_from_text_history (ResolveEnv.timeline none) ⟨true, []⟩
    "do something else"
  exact ⟨h.1, (h.2 rfl).1, (h.2 rfl).2.1⟩

/-- Claim C7: every built-in command on every parameter dict and every
external outcome returns a structured dict whose status is "success" or
"error" (its boundary catches everything, nothing is raised past it); and
when the binding reports no active timeline the result is an error with the
populated message "No active timeline". -/
theorem c7_commands_error_handling (c : CmdKind) (params : Dict)
    (env : ResolveEnv) :
    (∃ st, (cmd_execute c env params).lookup "status" = some (PyVal.str st) ∧
       (st = "success" ∨ st = "error")) ∧
    (env = ResolveEnv.timeline none →
       (cmd_execute c env params).lookup "status" = some (PyVal.str "error") ∧
       (cmd_execute c env params).lookup "message"
          = some (PyVal.str "No active timeline") ∧
       "No active timeline" ≠ "") := by
  cases c <;> rcases env with (_ | _) | m <;>
    refine ⟨⟨_, rfl, by decide⟩, fun h => ?_⟩ <;>
    first
      | exact ⟨rfl, rfl, by decide⟩
      | exact absurd h (by simp)

/-- Witness for C7: the cut command with empty parameters and no active
timeline yields a structured "No active timeline" error. -/
theorem c7_commands_error_handling_witness :
    (∃ st, (cmd_execute CmdKind.cut (ResolveEnv.timeline none) []).lookup "status"
        = some (PyVal.str st) ∧ (st = "success" ∨ st = "error")) ∧
    (cmd_execute CmdKind.cut (ResolveEnv.timeline none) []).lookup "status"
        = some (PyVal.str "error") ∧
    (cmd_execute CmdKind.cut (ResolveEnv.timeline none) []).lookup "message"
        = some (PyVal.str "No active timeline") := by
  have h := c7_commands_error_handling CmdKind.cut [] (ResolveEnv.timeline none)
  exact ⟨h.1, (h.2 rfl).1, (h.2 rfl).2.1⟩

/-- Claim C10: after `execute_from_text` on unmatched input, the last history
entry is the bare error dict — no "result" key, no "command_id" key — so
`get_last_feedback` returns `none`: neither the attached-feedback path nor
the recomputation path applies. -/
theorem c10_unmatched_then_feedback_none (env : ResolveEnv) (s : ExecutorState)
    (text : String) (h : match_nlp_intent text = none) :
    get_last_feedback (execute_from_text env s text).2 = none := by
  simp only [execute_from_text, h]
  unfold get_last_feedback
  rw [getLast?_append_singleton]
  rfl

/-- Witness for C10 on a concrete unmatched input. -/
theorem c10_unmatched_then_feedback_none_witness :
    get_last_feedback (execute_from_text (ResolveEnv.timeline (some ()))
      ⟨true, []⟩ "open the pod bay doors").2 = none :=
  c10_unmatched_then_feedback_none (ResolveEnv.timeline (some ())) ⟨true, []⟩
    "open the pod bay doors" rfl

/-- Claim C4: with feedback disabled at construction, `execute_from_text`
never puts a "feedback" key into the returned result; yet after any matched
execution `get_last_feedback` still returns a (non-absent) string, obtained by
re-running the matched command's feedback formatter on the stored result — a
pure recomputation (`get_last_feedback` consumes no execution environment, so
no command is re-executed); and on an empty history `get_last_feedback`
returns `none`. -/
theorem c4_feedback_disabled_recompute (env : ResolveEnv) (s : ExecutorState)
    (text : String) (hfb : s.feedback_enabled = false) :
    ((execute_from_text env s text).1.lookup "feedback" = none) ∧
    (∀ cid params, match_nlp_intent text = some (cid, params) →
       ∃ c, get_command cid = some c ∧
         get_last_feedback (execute_from_text env s text).2
           = some (cmd_get_feedback c (execute_from_text env s text).1)) ∧
    (∀ b : Bool, get_last_feedback ⟨b, []⟩ = none) := by
  refine ⟨?_, ?_, fun _ => rfl⟩
  · cases hm : match_nlp_intent text with
    | none =>
      simp only [execute_from_text, hm]
      rfl
    | some mr =>
      obtain ⟨cid, params⟩ := mr
      rcases match_cid_cases hm with h | h | h <;> subst h <;>
        · simp only [execute_from_text, hm, get_command, String.reduceEq,
            reduceIte, hfb, Bool.false_eq_true, if_false]
          exact lookup_feedback_cmd_execute _ env params
  · intro cid params hm
    rcases match_cid_cases hm with h | h | h <;> subst h <;>
      · refine ⟨_, rfl, ?_⟩
        simp only [execute_from_text, hm, get_command, String.reduceEq,
          reduceIte, hfb, Bool.false_eq_true, if_false]
        unfold get_last_feedback
        rw [getLast?_append_singleton]
        simp [List.lookup, lookup_feedback_cmd_execute, get_command]

/-- Witness for C4: with feedback disabled, a matched marker command stores a
result without a "feedback" key, yet `get_last_feedback` recomputes a string
from it; an empty history yields `none`. -/
theorem c4_feedback_disabled_recompute_witness :
    (execute_from_text (ResolveEnv.timeline (some ())) ⟨false, []⟩
        "set a red marker").1.lookup "feedback" = none ∧
    (∃ f, get_last_feedback (execute_from_text (ResolveEnv.timeline (some ()))
        ⟨false, []⟩ "set a red marker").2 = some f) ∧
    get_last_feedback ⟨false, []⟩ = none := by
  have h := c4_feedback_disabled_recompute (ResolveEnv.timeline (some ()))
    ⟨false, []⟩ "set a red marker" rfl
  refine ⟨h.1, ?_, h.2.2 false⟩
  obtain ⟨c, _, hg⟩ := h.2.1 "marker" [("color", PyVal.str "Red")] (by rfl)
  exact ⟨_, hg⟩

/-- Claim C5: from a disconnected client state (flag down, no session, no held
resources), every failing run of `connect_to_server` — whatever step the
environment makes fail — returns `false` and leaves the flag down, the session
absent and no exit-stack resource held. -/
theorem c5_connect_failure_leaves_idle (s : MCPClientState) (env : ConnectEnv)
    (hinit : s.initialized = false) (hsess : s.session = none)
    (hheld : heldResources s = [])
    (hfail : (connect_to_server s env).1 = false) :
    (connect_to_server s env).2.initialized = false ∧
    (connect_to_server s env).2.session = none ∧
    heldResources (connect_to_server s env).2 = [] := by
  obtain ⟨en, an, es, ss, init⟩ := s
  simp only at hinit hsess
  subst hinit; subst hsess
  cases en with
  | false => simp_all [connect_to_server, heldResources]
  | true =>
    cases an with
    | false => simp_all [connect_to_server, heldResources]
    | true =>
      cases hk : env.scriptKind with
      | none => simp_all [connect_to_server, heldResources]
      | some k =>
        cases htr : env.transportOk with
        | false => simp_all [connect_to_server, connectCleanup, heldResources]
        | true =>
          cases hin : env.initializeOk with
          | false => simp_all [connect_to_server, connectCleanup, heldResources]
          | true =>
            cases hlr : env.listResourcesOk with
            | false => simp_all [connect_to_server, connectCleanup, heldResources]
            | true =>
              cases htc : (env.hasToolsCap && !env.listToolsOk) with
              | true => simp_all [connect_to_server, connectCleanup, heldResources]
              | false =>
                exfalso
                simp [connect_to_server, hk, htr, hin, hlr, htc] at hfail

/-- Witness for C5 at a concrete disconnected state and an environment whose
`session.initialize()` raises. -/
theorem c5_connect_failure_leaves_idle_witness :
    (connect_to_server ⟨true, true, none, none, false⟩
        ⟨some ScriptKind.python, true, false, true, false, true⟩).1 = false ∧
    (connect_to_server ⟨true, true, none, none, false⟩
        ⟨some ScriptKind.python, true, false, true, false, true⟩).2.initialized = false ∧
    (connect_to_server ⟨true, true, none, none, false⟩
        ⟨some ScriptKind.python, true, false, true, false, true⟩).2.session = none ∧
    heldResources (connect_to_server ⟨true, true, none, none, false⟩
        ⟨some ScriptKind.python, true, false, true, false, true⟩).2 = [] :=
  ⟨rfl,
   c5_connect_failure_leaves_idle ⟨true, true, none, none, false⟩
     ⟨some ScriptKind.python, true, false, true, false, true⟩ rfl rfl rfl rfl⟩

/-- Claim C6: under the state invariant that a cleared handle implies a
cleared flag, `stop_server` is a no-op returning `false` when there is no
process handle; on a live process it calls `terminate()` once, returns `true`,
and — when the graceful 5-second wait times out — calls `kill()` exactly once
and waits again; and on every path the post-state has the handle and the
initialized flag cleared. -/
theorem c6_stop_server_paths (s : MCPHandlerState) (g : Bool)
    (hinv : s.serverProcess = none → s.initialized = false) :
    (s.serverProcess = none → stop_server s g = (false, s, ⟨0, 0, 0⟩)) ∧
    (∀ p, s.serverProcess = some p →
       (stop_server s g).1 = true ∧
       (stop_server s g).2.2.terminateCalls = 1 ∧
       (g = false → (stop_server s g).2.2.killCalls = 1 ∧
          (stop_server s g).2.2.waitCalls = 2) ∧
       (g = true → (stop_server s g).2.2.killCalls = 0 ∧
          (stop_server s g).2.2.waitCalls = 1)) ∧
    ((stop_server s g).2.1.serverProcess = none ∧
     (stop_server s g).2.1.initialized = false) := by
  obtain ⟨proc, init⟩ := s
  cases proc with
  | none =>
    refine ⟨fun _ => rfl, ?_, rfl, ?_⟩
    · intro p hp
      simp at hp
    · exact hinv rfl
  | some p =>
    refine ⟨?_, ?_, ?_, ?_⟩
    · intro h
      simp at h
    · intro q _
      cases g
      · refine ⟨rfl, rfl, fun _ => ⟨rfl, rfl⟩, fun h => ?_⟩
        exact absurd h (by decide)
      · refine ⟨rfl, rfl, fun h => ?_, fun _ => ⟨rfl, rfl⟩⟩
        exact absurd h (by decide)
    · cases g <;> rfl
    · cases g <;> rfl

/-- Witness for C6: a live process whose graceful wait times out is killed
exactly once with success reported, and a handler without a process handle
reports `false`. -/
theorem c6_stop_server_paths_witness :
    (stop_server ⟨some (), true⟩ false).1 = true ∧
    (stop_server ⟨some (), true⟩ false).2.2.killCalls = 1 ∧
    (stop_server ⟨some (), true⟩ false).2.1.serverProcess = none ∧
    (stop_server ⟨some (), true⟩ false).2.1.initialized = false ∧
    (stop_server ⟨none, false⟩ true).1 = false := by
  have h1 := c6_stop_server_paths ⟨some (), true⟩ false (fun h => by cases h)
  have h2 := c6_stop_server_paths ⟨none, false⟩ true (fun _ => rfl)
  refine ⟨(h1.2.1 () rfl).1, ((h1.2.1 () rfl).2.2.1 rfl).1, h1.2.2.1, h1.2.2.2, ?_⟩
  have := h2.1 rfl
  exact congrArg Prod.fst this

/-- Claim C8: `disconnect` on a non-initialized client is a no-op returning
`false` with the state unchanged; on an initialized client (which holds an
exit stack) it returns `true`, releases the stack, clears the session and the
flag; and a second call immediately after a successful disconnect is again a
no-op returning `false` with no state change. -/
theorem c8_disconnect_idempotent (s : MCPClientState) :
    (s.initialized = false → mcp_disconnect s = (false, s)) ∧
    (∀ rs, s.initialized = true → s.exitStack = some rs →
       mcp_disconnect s =
         (true, { s with exitStack := none, session := none, initialized := false }) ∧
       heldResources (mcp_disconnect s).2 = [] ∧
       mcp_disconnect (mcp_disconnect s).2 = (false, (mcp_disconnect s).2)) := by
  obtain ⟨en, an, es, ss, init⟩ := s
  constructor
  · intro h
    simp only at h
    subst h
    simp [mcp_disconnect]
  · intro rs hinit hes
    simp only at hinit hes
    subst hinit; subst hes
    refine ⟨by simp [mcp_disconnect], by simp [mcp_disconnect, heldResources], ?_⟩
    simp [mcp_disconnect]

/-- Witness for C8: both branches at concrete states — a connected client
disconnects once with `true` and a second call returns `false` unchanged; a
never-connected client returns `false` unchanged. -/
theorem c8_disconnect_idempotent_witness :
    mcp_disconnect ⟨true, true, none, none, false⟩
      = (false, ⟨true, true, none, none, false⟩) ∧
    mcp_disconnect ⟨true, true, some ["transport"], some (), true⟩
      = (true, ⟨true, true, none, none, false⟩) ∧
    mcp_disconnect (mcp_disconnect ⟨true, true, some ["transport"], some (), true⟩).2
      = (false, (mcp_disconnect ⟨true, true, some ["transport"], some (), true⟩).2) := by
  have h1 := (c8_disconnect_idempotent ⟨true, true, none, none, false⟩).1 rfl
  have h2 := (c8_disconnect_idempotent
    ⟨true, true, some ["transport"], some (), true⟩).2 ["transport"] rfl rfl
  exact ⟨h1, h2.1, h2.2.2⟩

/-- Claim C9: `generate_with_config` on an uninitialized handler returns the
fixed string "Error: API not initialized" without calling the API and without
touching state; on any call the handler state — including the process-wide
default `generation_config` — is unchanged afterwards; and a supplied
temperature reaches the API clamped to `max 0 (min 1 t)`, which lies in
`[0, 1]`, while the defaults keep their values for later calls. -/
theorem c9_generate_with_config_frame (s : GeminiState) (api : ApiOutcome)
    (prompt : String) (t m : Option ℚ) :
    (s.initialized = false →
       generate_with_config s api prompt t m = ("Error: API not initialized", s, none)) ∧
    ((generate_with_config s api prompt t m).2.1 = s) ∧
    (∀ q, s.initialized = true → t = some q →
       ∃ cfg, (generate_with_config s api prompt t m).2.2 = some cfg ∧
         cfg.lookup "temperature" = some (max 0 (min 1 q)) ∧
         0 ≤ max 0 (min 1 q) ∧ max 0 (min 1 q) ≤ (1 : ℚ)) := by
  obtain ⟨init, cfg⟩ := s
  refine ⟨?_, ?_, ?_⟩
  · intro h
    simp only at h
    subst h
    simp [generate_with_config]
  · cases init with
    | false => simp [generate_with_config]
    | true => cases t <;> cases m <;> cases api <;> simp [generate_with_config]
  · intro q hinit hq
    simp only at hinit
    subst hinit
    subst hq
    have hlook : ∀ (c2 : List (String × ℚ)),
        c2 = (match m with
              | some mv => cfgSet (cfgSet cfg "temperature" (max 0 (min 1 q)))
                  "max_output_tokens" mv
              | none => cfgSet cfg "temperature" (max 0 (min 1 q))) →
        c2.lookup "temperature" = some (max 0 (min 1 q)) := by
      intro c2 hc2
      cases m with
      | none => subst hc2; exact lookup_cfgSet_self cfg "temperature" _
      | some mv =>
        subst hc2
        rw [lookup_cfgSet_ne _ (by decide) mv]
        exact lookup_cfgSet_self cfg "temperature" _
    have hb : (0 : ℚ) ≤ max 0 (min 1 q) ∧ max 0 (min 1 q) ≤ 1 :=
      ⟨le_max_left 0 _, max_le (by norm_num) (min_le_left 1 q)⟩
    cases api with
    | ok txt =>
      cases m with
      | none =>
        exact ⟨_, by simp [generate_with_config], hlook _ rfl, hb.1, hb.2⟩
      | some mv =>
        exact ⟨_, by simp [generate_with_config], hlook _ rfl, hb.1, hb.2⟩
    | raised e =>
      cases m with
      | none =>
        exact ⟨_, by simp [generate_with_config], hlook _ rfl, hb.1, hb.2⟩
      | some mv =>
        exact ⟨_, by simp [generate_with_config], hlook _ rfl, hb.1, hb.2⟩

/-- Witness for C9: an uninitialized handler returns the fixed error string;
an initialized handler called with temperature 5 passes the clamped value 1 to
the API and its stored defaults are unchanged. -/
theorem c9_generate_with_config_frame_witness :
    generate_with_config ⟨false, []⟩ (ApiOutcome.ok "hi") "p" (some 5) none
      = ("Error: API not initialized", ⟨false, []⟩, none) ∧
    (generate_with_config ⟨true, defaultGenerationConfig⟩ (ApiOutcome.ok "hi") "p"
        (some 5) (some 2048)).2.1 = ⟨true, defaultGenerationConfig⟩ ∧
    (∃ cfg, (generate_with_config ⟨true, defaultGenerationConfig⟩ (ApiOutcome.ok "hi")
        "p" (some 5) (some 2048)).2.2 = some cfg ∧
      cfg.lookup "temperature" = some (max 0 (min 1 5)) ∧
      0 ≤ max 0 (min 1 (5 : ℚ)) ∧ max 0 (min 1 (5 : ℚ)) ≤ 1) := by
  have h0 := c9_generate_with_config_frame ⟨false, []⟩ (ApiOutcome.ok "hi") "p"
    (some 5) none
  have h1 := c9_generate_with_config_frame ⟨true, defaultGenerationConfig⟩
    (ApiOutcome.ok "hi") "p" (some 5) (some 2048)
  exact ⟨h0.1 rfl, h1.2.1, h1.2.2 5 rfl rfl⟩

end DavinciMCP

